import Mathlib

/-!
Shallow embedding of `src/routes.py` (andrydwis/social-media-downloader).

Modelling conventions:
  - a Python dict field that may be missing is an `Option`; `fmt.get(k)` is the
    field itself, `fmt.get(k, d)` is `(field).getD d`;
  - Python string falsiness (`if not s`) is the test `s == ""` on a present
    string, together with the `none` case of the `Option`;
  - `x or y` on optional integers (Python truthiness: `0` is falsy) is
    `resolveFileSize`;
  - Python `str.capitalize()` (first character uppercased, the rest lowercased;
    the strings involved are ASCII) is `pyCapitalize`;
  - a Python dict used as an ordered map is an association list with in-place
    update on an existing key (`dictInsert`), matching insertion-order
    semantics;
  - the two external collaborators (the `get_cookies` HTTP fetch and the
    yt-dlp engine call) are oracles: their outcomes are parameters of
    `extract_metadata`, and whether each would be reached is captured by
    `get_cookies_calls` / `engineInvoked`, read off the control flow of the
    endpoint body.
-/

/-- Split a character list at every occurrence of the character `c`, keeping
empty pieces, as Python `str.split` with a one-character separator does. All
string primitives here are written by structural recursion on the character
list so that every definition evaluates by kernel reduction. -/
def splitOnChar (c : Char) : List Char → List (List Char)
  | [] => [[]]
  | a :: rest =>
    if a == c then [] :: splitOnChar c rest
    else match splitOnChar c rest with
      | [] => [[a]]
      | h :: t => (a :: h) :: t

/-- Split a character list at every non-overlapping occurrence of the
two-character separator of `cookies_str.split("; ")`, scanning left to
right. -/
def splitOnSemiSpace : List Char → List (List Char)
  | [] => [[]]
  | [a] => [[a]]
  | a :: b :: rest =>
    if a == ';' && b == ' ' then [] :: splitOnSemiSpace rest
    else match splitOnSemiSpace (b :: rest) with
      | [] => [[a]]
      | h :: t => (a :: h) :: t

/-- Python `s.endswith(suffix)`: the last `len(suffix)` characters equal the
suffix. -/
def strEndsWith (s suffix : String) : Bool :=
  s.data.drop (s.data.length - suffix.data.length) == suffix.data

/-- Python `s.lower()` on ASCII text. -/
def strToLower (s : String) : String := String.mk (s.data.map Char.toLower)

/-- Values stored by `format_cookies`: cookie values are strings, the synthetic
secure markers are the boolean `True`. -/
inductive CookieVal where
  | str (s : String)
  | bool (b : Bool)
deriving DecidableEq, Repr

/-- Insertion-ordered dict assignment `d[k] = v`: replaces in place when the key
exists, else appends. -/
def dictInsert (d : List (String × CookieVal)) (k : String) (v : CookieVal) :
    List (String × CookieVal) :=
  if d.any (fun p => p.1 == k) then
    d.map (fun p => if p.1 == k then (k, v) else p)
  else d ++ [(k, v)]

/-- Python `part.split("=", 1)`: the text before the first `=` and everything
after it. Only used on parts that contain `=`, where `splitOn` returns at
least two pieces. -/
def splitFirstEq (part : String) : String × String :=
  match splitOnChar '=' part.data with
  | [] => (part, "")
  | n :: rest => (String.mk n, String.mk (List.intercalate "=".data rest))

/-- The reserved cookie-attribute keys of `format_cookies`
(routes.py line 128). -/
def reservedKeys : List String := ["domain", "path", "secure", "expires"]

/-- Loop state of `format_cookies`: the running `current_name` pointer and the
accumulated dict. -/
structure CookieState where
  current : Option String
  cookies : List (String × CookieVal)
deriving DecidableEq, Repr

/-- One iteration of the `for part in parts` loop of `format_cookies`
(routes.py lines 125-133). Note `if current_name:` is Python truthiness, so an
empty-string current name behaves like an unset one. -/
def formatCookiesStep (st : CookieState) (part : String) : CookieState :=
  if part.data.contains '=' then
    let name := (splitFirstEq part).1
    let value := (splitFirstEq part).2
    if reservedKeys.contains (strToLower name) then st
    else { current := some name
           cookies := dictInsert st.cookies name (CookieVal.str value) }
  else if strToLower part == "secure" then
    match st.current with
    | some n =>
      if n == "" then st
      else { st with cookies := dictInsert st.cookies (n ++ "_secure") (CookieVal.bool true) }
    | none => st
  else st

/-- `format_cookies` (routes.py lines 116-135): `if not cookies_str: return
None`, then split on the literal separator and fold the loop body. -/
def format_cookies : Option String → Option (List (String × CookieVal))
  | none => none
  | some s =>
    if s == "" then none
    else some ((((splitOnSemiSpace s.data).map String.mk).foldl
      formatCookiesStep ⟨none, []⟩).cookies)

/-- One raw stream descriptor as consumed by `extract_metadata`: exactly the
keys the endpoint reads from each element of `info["formats"]`. Any key may be
absent. Numeric fields are carried as integers (no arithmetic is done on
them). -/
structure RawFormat where
  format_id : Option String := none
  resolution : Option String := none
  url : Option String := none
  ext : Option String := none
  vcodec : Option String := none
  acodec : Option String := none
  abr : Option Int := none
  filesize : Option Int := none
  filesize_approx : Option Int := none
  cookies : Option String := none
deriving DecidableEq, Repr

/-- Python `fmt.get("filesize") or fmt.get("filesize_approx")`
(routes.py line 206): the declared size when it is truthy (present and
nonzero), otherwise the approximate size verbatim. -/
def resolveFileSize (filesize filesize_approx : Option Int) : Option Int :=
  match filesize with
  | some n => if n != 0 then some n else filesize_approx
  | none => filesize_approx

/-- The retention predicate of the format list comprehension
(routes.py lines 210-218):
`(fmt.get("ext") == "mp4" and fmt.get("vcodec") != "none"
  or fmt.get("acodec") != "none" and fmt.get("vcodec") == "none")
 and not fmt.get("url", "").endswith(".m3u8")`. -/
def includeFormat (fmt : RawFormat) : Bool :=
  ((fmt.ext == some "mp4" && fmt.vcodec != some "none")
      || (fmt.acodec != some "none" && fmt.vcodec == some "none"))
    && !(strEndsWith (fmt.url.getD "") ".m3u8")

/-- The normalized per-format record built by the comprehension
(routes.py lines 193-208); field names and types follow the `VideoFormat`
pydantic model. -/
structure VideoFormat where
  format_id : Option String
  resolution : String
  url : Option String
  has_audio : Bool
  has_video : Bool
  bitrate : Option Int
  audio_codec : Option String
  ext : Option String
  file_size : Option Int
  cookies : Option (List (String × CookieVal))
deriving DecidableEq, Repr

/-- The dict built for one retained descriptor (routes.py lines 193-208). -/
def normalizeFormat (fmt : RawFormat) : VideoFormat :=
  { format_id := fmt.format_id
    resolution :=
      if fmt.vcodec != some "none" then fmt.resolution.getD "audio only"
      else "audio only"
    url := fmt.url
    has_audio := fmt.acodec != some "none"
    has_video := fmt.vcodec != some "none"
    bitrate := fmt.abr
    audio_codec := fmt.acodec
    ext := fmt.ext
    file_size := resolveFileSize fmt.filesize fmt.filesize_approx
    cookies := format_cookies fmt.cookies }

/-- The whole `filtered_formats` comprehension (routes.py lines 192-219). -/
def filtered_formats (formats : List RawFormat) : List VideoFormat :=
  (formats.filter includeFormat).map normalizeFormat

/-- The engine report consumed by `extract_metadata`: the keys it reads from
`info`. -/
structure Info where
  extractor_key : Option String := none
  title : Option String := none
  duration : Option Int := none
  thumbnail : Option String := none
  formats : List RawFormat := []
deriving DecidableEq, Repr

/-- The response model `Metadata` (routes.py lines 40-49). -/
structure Metadata where
  platform : String
  title : String
  duration : Option Int
  thumbnail : Option String
  formats : List VideoFormat
deriving DecidableEq, Repr

/-- Python `str.capitalize()` on ASCII text: first character uppercased, every
following character lowercased. -/
def pyCapitalize (s : String) : String :=
  match s.data with
  | [] => ""
  | c :: cs => String.mk (c.toUpper :: cs.map Char.toLower)

/-- The response dict assembled on success (routes.py lines 189 and 222-228),
including `platform = info.get("extractor_key", "Unknown Platform").capitalize()`. -/
def buildMetadata (info : Info) : Metadata :=
  { platform := pyCapitalize (info.extractor_key.getD "Unknown Platform")
    title := info.title.getD "Unknown Title"
    duration := info.duration
    thumbnail := info.thumbnail
    formats := filtered_formats info.formats }

/-- The platform test of the credential step (routes.py line 157). -/
def credentialsRequired (platform : String) : Bool :=
  platform == "tiktok" || platform == "youtube"

/-- How many times the endpoint calls `get_cookies` for a request
(routes.py lines 156-159). The source consults only the platform string: it
never checks whether a cookie artifact already exists on disk and takes no
refresh flag, so those two observable states are parameters that the count
does not depend on. -/
def get_cookies_calls (platform : String) (_artifactExists _forceRefresh : Bool) : Nat :=
  if platform == "tiktok" || platform == "youtube" then 1 else 0

/-- Whether control reaches `ydl.extract_info` (routes.py line 186): it does
unless the credential step raised first. `cookiesOk` is the oracle for
`await get_cookies(...)` having returned `True` (a `False` or fall-through
`None` return are both falsy and abort). -/
def engineInvoked (platform : String) (cookiesOk : Bool) : Bool :=
  !(credentialsRequired platform && !cookiesOk)

/-- An `HTTPException(status_code, detail)`. -/
structure HTTPError where
  status : Nat
  detail : String
deriving DecidableEq, Repr

/-- Outcome oracle for `ydl.extract_info`: either the info dict or the message
of the exception it raised. -/
inductive EngineResult where
  | ok (info : Info)
  | raised (msg : String)
deriving DecidableEq, Repr

/-- The `extract_metadata` endpoint body (routes.py lines 144-235), with the
two external calls replaced by their outcome oracles: abort with a 500 when a
required credential fetch did not succeed, otherwise map an engine exception
to a 400 and an engine report to the assembled response. -/
def extract_metadata (platform : String) (cookiesOk : Bool)
    (engine : EngineResult) : Except HTTPError Metadata :=
  if credentialsRequired platform && !cookiesOk then
    Except.error ⟨500, "Cookie generation failed"⟩
  else
    match engine with
    | EngineResult.raised e => Except.error ⟨400, "Error processing video: " ++ e⟩
    | EngineResult.ok info => Except.ok (buildMetadata info)

/-- C1: a raw descriptor passes the retention filter (and hence appears,
normalized, in the output list, which is exactly the filter-then-map of the
catalog) iff its URL does not end in `.m3u8` and either it is an mp4 whose
video codec is not the "none" sentinel, or its audio codec is not "none"
while its video codec is the "none" sentinel. Presence of a codec is the
claim's gloss "not the none sentinel", matching the source's `!= "none"`
comparisons, under which an absent codec field also counts as present. -/
theorem retention_rule (fmt : RawFormat) :
    (includeFormat fmt = true ↔
      (strEndsWith (fmt.url.getD "") ".m3u8" = false ∧
        ((fmt.ext = some "mp4" ∧ fmt.vcodec ≠ some "none") ∨
          (fmt.acodec ≠ some "none" ∧ fmt.vcodec = some "none")))) ∧
    ∀ formats : List RawFormat,
      filtered_formats formats = (formats.filter includeFormat).map normalizeFormat := by
  refine ⟨?_, fun _ => rfl⟩
  simp only [includeFormat, Bool.and_eq_true, Bool.or_eq_true, bne_iff_ne,
    beq_iff_eq, Bool.not_eq_true', ne_eq]
  tauto

/-- C2 fails on the code: a retained mp4 descriptor whose audio codec field is
absent gets `has_audio = true`, because the source computes
`fmt.get("acodec") != "none"` and `None != "none"` holds; the claim predicts
`has_audio = false` there. -/
theorem has_audio_absent_counterexample :
    includeFormat { ext := some "mp4", vcodec := some "h264", acodec := none, url := some "http://e/v.mp4" } = true ∧
    ({ ext := some "mp4", vcodec := some "h264", acodec := none, url := some "http://e/v.mp4" } : RawFormat).acodec = none ∧
    (normalizeFormat { ext := some "mp4", vcodec := some "h264", acodec := none, url := some "http://e/v.mp4" }).has_audio = true := by
  decide

/-- C2 amended: for every descriptor, `has_audio` is true iff the audio codec
field is not the literal "none" (an absent field also yields true), and
`has_video` is true iff the video codec field is not the literal "none"
(an absent field also yields true); in particular this holds for every
retained descriptor. -/
theorem has_audio_has_video_from_codecs (fmt : RawFormat) :
    ((normalizeFormat fmt).has_audio = true ↔ fmt.acodec ≠ some "none") ∧
    ((normalizeFormat fmt).has_video = true ↔ fmt.vcodec ≠ some "none") := by
  simp [normalizeFormat, bne_iff_ne]

/-- C3: a descriptor carrying the "none" video-codec marker (the spec's "no
video codec"), an audio codec other than "none", and a URL not ending in
`.m3u8` is retained whatever its container extension, with
`has_video = false`, `has_audio = true` and resolution the literal
"audio only". -/
theorem audio_only_classification (fmt : RawFormat)
    (hv : fmt.vcodec = some "none") (ha : fmt.acodec ≠ some "none")
    (hu : strEndsWith (fmt.url.getD "") ".m3u8" = false) :
    includeFormat fmt = true ∧
    (normalizeFormat fmt).has_video = false ∧
    (normalizeFormat fmt).has_audio = true ∧
    (normalizeFormat fmt).resolution = "audio only" := by
  refine ⟨?_, ?_, ?_, ?_⟩ <;>
    simp [includeFormat, normalizeFormat, hv, hu, bne_iff_ne, ha]

/-- Witness for C3 at a concrete audio-only descriptor. -/
theorem audio_only_classification_witness :
    includeFormat { ext := some "m4a", vcodec := some "none", acodec := some "aac", url := some "http://e/a.m4a" } = true ∧
    (normalizeFormat { ext := some "m4a", vcodec := some "none", acodec := some "aac", url := some "http://e/a.m4a" }).resolution = "audio only" := by
  have h := audio_only_classification
    { ext := some "m4a", vcodec := some "none",
      acodec := some "aac", url := some "http://e/a.m4a" }
    (by decide) (by decide) (by decide)
  exact ⟨h.1, h.2.2.2⟩

/-- C4 fails on the code: the endpoint calls `get_cookies` unconditionally for
an allow-listed platform — there is no check that a cookie artifact already
exists and no forced-refresh flag — so with an existing artifact and no
refresh requested the acquirer is still invoked once, where the claim
requires zero invocations. -/
theorem acquirer_skipped_counterexample :
    get_cookies_calls "tiktok" true false = 1 ∧
    ¬ get_cookies_calls "tiktok" true false = 0 := by
  decide

/-- C4 amended: for a platform on the fixed allow-list (tiktok, youtube) the
credential acquirer is invoked exactly once on every request, regardless of
whether a credential artifact exists or a forced refresh was requested; for
any other platform it is never invoked. -/
theorem acquirer_invocation_policy (p : String) (artifactExists forceRefresh : Bool) :
    get_cookies_calls p artifactExists forceRefresh =
      if p = "tiktok" ∨ p = "youtube" then 1 else 0 := by
  by_cases h : p = "tiktok" ∨ p = "youtube"
  · rcases h with h | h <;> subst h <;> simp [get_cookies_calls]
  · push_neg at h
    simp [get_cookies_calls, h.1, h.2]

/-- C5: when the platform requires credentials and the acquirer does not
report success, the request fails with the fixed 500 error, control never
reaches the extraction engine, and the acquirer is called exactly once (no
automatic retry), whatever engine outcome would have followed. -/
theorem credential_failure_500 (p : String) (eng : EngineResult)
    (hp : credentialsRequired p = true) :
    extract_metadata p false eng = Except.error ⟨500, "Cookie generation failed"⟩ ∧
    engineInvoked p false = false ∧
    (∀ a f, get_cookies_calls p a f = 1) := by
  have hc : (p == "tiktok" || p == "youtube") = true := hp
  refine ⟨?_, ?_, fun a f => ?_⟩
  · simp [extract_metadata, hp]
  · simp [engineInvoked, hp]
  · simp [get_cookies_calls, hc]

/-- Witness for C5 at platform tiktok with a would-be engine error. -/
theorem credential_failure_500_witness :
    credentialsRequired "tiktok" = true ∧
    extract_metadata "tiktok" false (EngineResult.raised "boom") =
      Except.error ⟨500, "Cookie generation failed"⟩ :=
  ⟨by decide,
    (credential_failure_500 "tiktok" (EngineResult.raised "boom") (by decide)).1⟩

/-- C6: whenever control reaches the extraction engine and it raises with
message `msg`, the endpoint answers 400 with the engine text interpolated
into the fixed template, and no metadata response is produced. -/
theorem engine_error_maps_to_400 (p : String) (ok : Bool) (msg : String)
    (h : engineInvoked p ok = true) :
    extract_metadata p ok (EngineResult.raised msg) =
      Except.error ⟨400, "Error processing video: " ++ msg⟩ ∧
    ∀ md, extract_metadata p ok (EngineResult.raised msg) ≠ Except.ok md := by
  have h2 : (credentialsRequired p && !ok) = false := by
    simp only [engineInvoked, Bool.not_eq_true'] at h
    exact h
  constructor
  · simp [extract_metadata, h2]
  · intro md
    simp [extract_metadata, h2]

/-- Witness for C6 at a credential-free platform. -/
theorem engine_error_maps_to_400_witness :
    engineInvoked "facebook" true = true ∧
    extract_metadata "facebook" true (EngineResult.raised "boom") =
      Except.error ⟨400, "Error processing video: " ++ "boom"⟩ :=
  ⟨by decide,
    (engine_error_maps_to_400 "facebook" true "boom" (by decide)).1⟩

/-- C7 fails on the code at the input `"=v; secure"`: the first segment sets
the current-name pointer to the empty string, so a current name exists, yet
the bare "secure" token adds no synthetic entry because `if current_name:`
treats the empty string as falsy. -/
theorem cookie_secure_empty_name_counterexample :
    format_cookies (some "=v; secure") = some [("", CookieVal.str "v")] ∧
    ("_secure", CookieVal.bool true) ∉ (format_cookies (some "=v; secure")).getD [] := by
  decide

/-- C7 amended: absent or empty input yields an absent result; a `name=value`
segment with a non-reserved key (case-insensitively) records the value under
that name and updates the current-name pointer; a reserved-key `name=value`
segment is skipped without touching the pointer; a bare "secure" token adds
`<current name>_secure = true` when a nonempty current name exists and is a
no-op otherwise (in particular when the current name is the empty string);
and `"a=1; Domain=x.com; secure; b=2"` parses to
`{a: "1", a_secure: true, b: "2"}`. -/
theorem cookie_parser_behavior (st : CookieState) (part : String) :
    format_cookies none = none ∧
    format_cookies (some "") = none ∧
    (part.data.contains '=' = true →
      reservedKeys.contains (strToLower (splitFirstEq part).1) = false →
      formatCookiesStep st part =
        { current := some (splitFirstEq part).1
          cookies := dictInsert st.cookies (splitFirstEq part).1
            (CookieVal.str (splitFirstEq part).2) }) ∧
    (part.data.contains '=' = true →
      reservedKeys.contains (strToLower (splitFirstEq part).1) = true →
      formatCookiesStep st part = st) ∧
    (∀ n, part.data.contains '=' = false → strToLower part = "secure" →
      st.current = some n → n ≠ "" →
      formatCookiesStep st part =
        { st with cookies := dictInsert st.cookies (n ++ "_secure") (CookieVal.bool true) }) ∧
    (part.data.contains '=' = false → strToLower part = "secure" →
      (st.current = none ∨ st.current = some "") →
      formatCookiesStep st part = st) ∧
    format_cookies (some "a=1; Domain=x.com; secure; b=2") =
      some [("a", CookieVal.str "1"), ("a_secure", CookieVal.bool true),
        ("b", CookieVal.str "2")] := by
  refine ⟨rfl, by decide, ?_, ?_, ?_, ?_, by decide⟩
  · intro h1 h2
    have h1m : ('=' ∈ part.data) := by simpa using h1
    have h2m : strToLower (splitFirstEq part).1 ∉ reservedKeys := by simpa using h2
    simp [formatCookiesStep, h1m, h2m]
  · intro h1 h2
    have h1m : ('=' ∈ part.data) := by simpa using h1
    have h2m : strToLower (splitFirstEq part).1 ∈ reservedKeys := by simpa using h2
    simp [formatCookiesStep, h1m, h2m]
  · intro n h1 h2 h3 h4
    have h1m : ¬ ('=' ∈ part.data) := by simpa using h1
    simp [formatCookiesStep, h1m, h2, h3, h4]
  · intro h1 h2 h3
    have h1m : ¬ ('=' ∈ part.data) := by simpa using h1
    rcases h3 with h3 | h3 <;> simp [formatCookiesStep, h1m, h2, h3]

/-- Witness for C7 amended: the non-reserved clause at the segment `"a=1"`
from the empty state. -/
theorem cookie_parser_behavior_witness :
    ("a=1".data.contains '=' = true) ∧
    formatCookiesStep ⟨none, []⟩ "a=1" = ⟨some "a", [("a", CookieVal.str "1")]⟩ :=
  ⟨by decide, by
    have h := (cookie_parser_behavior ⟨none, []⟩ "a=1").2.2.1 (by decide) (by decide)
    exact h.trans (by decide)⟩

/-- C8 fails on the code when the engine reports no identifier: the fallback
default "Unknown Platform" is itself passed through `str.capitalize()`, which
lowercases everything after the first character, so the response label is
"Unknown platform", not the claimed literal "Unknown Platform". -/
theorem platform_fallback_counterexample :
    (buildMetadata { extractor_key := none }).platform = "Unknown platform" ∧
    (buildMetadata { extractor_key := none }).platform ≠ "Unknown Platform" := by
  decide

/-- C8 amended: the platform label is the engine's self-reported identifier
with its first character uppercased and all following characters lowercased
(Python `str.capitalize()`), and equals "Unknown platform" when the engine
provides no identifier, because the fallback literal is capitalized too. -/
theorem platform_label_capitalize (info : Info) :
    (info.extractor_key = none →
      (buildMetadata info).platform = "Unknown platform") ∧
    (∀ s, info.extractor_key = some s →
      (buildMetadata info).platform = pyCapitalize s) := by
  constructor
  · intro h
    simp only [buildMetadata, h, Option.getD_none]
    decide
  · intro s h
    simp [buildMetadata, h]

/-- Witness for C8 amended at an engine report with no identifier. -/
theorem platform_label_capitalize_witness :
    (({ extractor_key := none } : Info).extractor_key = none) ∧
    (buildMetadata { extractor_key := none }).platform = "Unknown platform" :=
  ⟨rfl, (platform_label_capitalize { extractor_key := none }).1 rfl⟩

/-- C9 fails on the code at a declared size of 0: `filesize or filesize_approx`
uses Python truthiness, so a present declared size of 0 is skipped in favor of
the approximate size, where the claim requires the declared size to win
whenever present. -/
theorem filesize_zero_counterexample :
    includeFormat { ext := some "mp4", vcodec := some "h264", url := some "http://e/v.mp4", filesize := some 0, filesize_approx := some 200 } = true ∧
    (normalizeFormat { ext := some "mp4", vcodec := some "h264", url := some "http://e/v.mp4", filesize := some 0, filesize_approx := some 200 }).file_size = some 200 ∧
    (normalizeFormat { ext := some "mp4", vcodec := some "h264", url := some "http://e/v.mp4", filesize := some 0, filesize_approx := some 200 }).file_size ≠ some 0 := by
  decide

/-- C9 amended: the produced file_size equals the declared exact size when it
is present and nonzero; when the declared size is absent or zero it equals the
approximate size verbatim (hence absent when both are absent). -/
theorem file_size_resolution (fmt : RawFormat) :
    (∀ n : Int, fmt.filesize = some n → n ≠ 0 →
      (normalizeFormat fmt).file_size = some n) ∧
    ((fmt.filesize = none ∨ fmt.filesize = some 0) →
      (normalizeFormat fmt).file_size = fmt.filesize_approx) := by
  constructor
  · intro n h hn
    simp [normalizeFormat, resolveFileSize, h, hn]
  · rintro (h | h) <;> simp [normalizeFormat, resolveFileSize, h]

/-- Witness for C9 amended: declared 100 beats approximate 200, and absent
declared falls back to approximate 200. -/
theorem file_size_resolution_witness :
    ((100 : Int) ≠ 0 ∧
      (normalizeFormat { filesize := some 100, filesize_approx := some 200 }).file_size = some 100) ∧
    (normalizeFormat { filesize := none, filesize_approx := some 200 }).file_size = some 200 :=
  ⟨⟨by decide,
      (file_size_resolution { filesize := some 100, filesize_approx := some 200 }).1
        100 rfl (by decide)⟩,
    (file_size_resolution { filesize := none, filesize_approx := some 200 }).2
      (Or.inl rfl)⟩

/-- C10: a retained descriptor with a declared size of exactly 0 and an
approximate size present gets the approximate size, and indeed the zero
declared size behaves exactly as an absent one does under the resolution
rule. -/
theorem filesize_zero_as_absent (fmt : RawFormat) (n : Int)
    (_hinc : includeFormat fmt = true)
    (h0 : fmt.filesize = some 0) (ha : fmt.filesize_approx = some n) :
    (normalizeFormat fmt).file_size = some n ∧
    (normalizeFormat fmt).file_size = resolveFileSize none fmt.filesize_approx := by
  constructor <;> simp [normalizeFormat, resolveFileSize, h0, ha]

/-- Witness for C10 at a retained mp4 descriptor with declared 0 and
approximate 200. -/
theorem filesize_zero_as_absent_witness :
    includeFormat { ext := some "mp4", vcodec := some "h264", url := some "http://e/v2.mp4", filesize := some 0, filesize_approx := some 200 } = true ∧
    (normalizeFormat { ext := some "mp4", vcodec := some "h264", url := some "http://e/v2.mp4", filesize := some 0, filesize_approx := some 200 }).file_size = some 200 :=
  ⟨by decide,
    (filesize_zero_as_absent
      { ext := some "mp4", vcodec := some "h264", url := some "http://e/v2.mp4", filesize := some 0, filesize_approx := some 200 }
      200 (by decide) rfl rfl).1⟩
